import Mathlib

/-!
Shallow embedding of `backend/main.py` of the kt-stock-game repository:
a small HTTP facade over a market-data provider with

* `_safe`          — None/NaN-safe field extraction (`pySafe`, `pySafeFull`),
* `_build_summary` — batch quote shaping with derived change/changePercent
                     (`buildSummary`),
* `GET /api/stocks` — batch aggregation with per-symbol error isolation
                     (`getStocks`),
* `GET /api/stock/{symbol}` — single detail with 502/404 error mapping
                     (`getStockDetail`).

Python numbers are modelled as rationals with an explicit NaN sentinel;
raw provider records are schema-less maps from field names to values;
exceptions are modelled with `Except` over an exception-class type, since
`_safe`'s `except (TypeError, ValueError)` clause distinguishes classes.
-/

namespace StockGame

/-- An executable rational number: finite Python floats are modelled as
exact rationals. The smart constructor `mkQ` keeps values normalized
(nonnegative denominator, lowest terms), so structural equality is value
equality on everything the embedded code computes. Built directly on
`Int`/`Nat` so that all arithmetic reduces inside the kernel. -/
structure Q where
  n : ℤ
  d : ℕ
deriving DecidableEq, Repr

/-- Normalize `n / d` (with `d` a natural denominator) to lowest terms. -/
def mkQ (n : ℤ) (d : ℕ) : Q :=
  let g := Nat.gcd n.natAbs d
  if g = 0 then ⟨0, 1⟩ else ⟨n / (g : ℤ), d / g⟩

/-- Normalize `n / d` for a possibly negative denominator. -/
def mkQi (n d : ℤ) : Q :=
  if d < 0 then mkQ (-n) (-d).toNat else mkQ n d.toNat

instance (n : ℕ) : OfNat Q n := ⟨⟨(n : ℤ), 1⟩⟩

instance : Sub Q := ⟨fun a b => mkQ (a.n * b.d - b.n * a.d) (a.d * b.d)⟩

instance : Mul Q := ⟨fun a b => mkQ (a.n * b.n) (a.d * b.d)⟩

/-- Exact rational division; only ever applied to nonzero divisors
(the code guards the division by Python truthiness). -/
instance : Div Q := ⟨fun a b => mkQi (a.n * b.d) ((a.d : ℤ) * b.n)⟩

/-- Exception classes relevant to the embedded code: `_safe` catches exactly
`TypeError` and `ValueError`; every other class is `other`. -/
inductive Exn where
  | typeError
  | valueError
  | other
deriving DecidableEq, Repr

/-- A value occurring in a raw provider record, per the data model:
absent/None, a (finite) number, the float NaN sentinel, or a string.
Python floats are modelled as exact rationals with NaN kept separate. -/
inductive Val where
  | vnone
  | num (q : Q)
  | nan
  | vstr (s : String)
deriving DecidableEq, Repr

/-- An arbitrary Python value passed to `_safe`: either a record-style base
value, or a custom object whose self-comparison `v != v` raises the given
exception class (`none` = the comparison returns `False` normally, which is
the default object behaviour). -/
inductive PyVal where
  | base (v : Val)
  | obj (raises : Option Exn)
deriving DecidableEq, Repr

/-- Embedding of `_safe(value, default)` over arbitrary Python values:

    if value is None: return default
    try:
        if value != value:  # NaN check
            return default
    except (TypeError, ValueError):
        pass
    return value

`None` and NaN yield the default; a comparison raising `TypeError` or
`ValueError` is caught and the value passes through; a comparison raising
any other class propagates. Python's optional `default=None` parameter is
made explicit: callers that omit it pass `.base .vnone`. -/
def pySafeFull (value default : PyVal) : Except Exn PyVal :=
  match value with
  | .base .vnone => .ok default
  | .base .nan => .ok default
  | .obj (some .typeError) => .ok value
  | .obj (some .valueError) => .ok value
  | .obj (some .other) => .error .other
  | v => .ok v

/-- Restriction of `_safe` to record values (string/number/absent per the data
model), where the self-comparison never raises: total. -/
def pySafe (value default : Val) : Val :=
  match value with
  | .vnone => default
  | .nan => default
  | v => v

/-- Python truthiness of a record value: `None` and `0` and `""` are falsy;
NaN is truthy (it never survives `_safe`, but the definition is faithful).
A number is zero exactly when its numerator is. -/
def truthy : Val → Bool
  | .vnone => false
  | .num q => decide (q.n ≠ 0)
  | .nan => true
  | .vstr s => decide (s ≠ "")

/-- Python's short-circuit `a or b` on record values. -/
def pyOr (a b : Val) : Val :=
  if truthy a then a else b

/-- ASCII uppercase of one character, as Python's `str.upper` acts on the
ASCII range (`'a'..'z'` map down by 32, everything else unchanged). -/
def upChar (c : Char) : Char :=
  if 97 ≤ c.toNat ∧ c.toNat ≤ 122 then Char.ofNat (c.toNat - 32) else c

/-- Python `s.upper()` (ASCII range). -/
def pyUpper (s : String) : String :=
  String.mk (s.data.map upChar)

/-- Whitespace characters stripped by Python's `str.strip()`
(restricted to the common ASCII whitespace). -/
def isSpaceChar (c : Char) : Bool :=
  c = ' ' ∨ c = '\t' ∨ c = '\n' ∨ c = '\r'

/-- Python `s.strip()`: drop leading and trailing whitespace. -/
def pyStrip (s : String) : String :=
  String.mk (((s.data.dropWhile isSpaceChar).reverse.dropWhile isSpaceChar).reverse)

/-- Auxiliary for `splitComma`: accumulates the current chunk (reversed). -/
def splitCommaAux : List Char → List Char → List String
  | [], acc => [String.mk acc.reverse]
  | c :: rest, acc =>
      if c = ',' then String.mk acc.reverse :: splitCommaAux rest []
      else splitCommaAux rest (c :: acc)

/-- Python `s.split(",")`: e.g. `"" ↦ [""]`, `"a,,b" ↦ ["a","","b"]`. -/
def splitComma (s : String) : List String :=
  splitCommaAux s.data []

/-- Round half-to-even to an integer (Python 3 `round` tie-breaking):
`f` is the floor and `r` the nonnegative remainder, so the fractional part
is `r / d`, below (above) one half exactly when `2r < d` (`d < 2r`). -/
def roundHalfEven (q : Q) : ℤ :=
  let f := Int.fdiv q.n q.d
  let r := q.n - f * q.d
  if 2 * r < (q.d : ℤ) then f
  else if (q.d : ℤ) < 2 * r then f + 1
  else if f % 2 = 0 then f else f + 1

/-- Python `round(x, 2)`: round to 2 decimal places, ties to even. -/
def round2 (q : Q) : Q :=
  mkQ (roundHalfEven (q * ⟨100, 1⟩)) 100

/-- A raw provider record (`ticker.info`): a schema-less map from field
names to values; a missing key reads as `None`, exactly like Python's
`dict.get`. A falsy `ticker.info` (`ticker.info or {}`) is the record that
is `vnone` everywhere. -/
def Record : Type := String → Val

/-- Build a record from an association list (missing keys read `vnone`). -/
def recOf (l : List (String × Val)) : Record :=
  fun k =>
    match l.find? (fun p => p.1 == k) with
    | some p => p.2
    | none => .vnone

/-- The price extraction shared verbatim by `_build_summary` and
`get_stock_detail`:
`_safe(info.get("currentPrice")) or _safe(info.get("regularMarketPrice"))`. -/
def extractPrice (info : Record) : Val :=
  pyOr (pySafe (info "currentPrice") .vnone) (pySafe (info "regularMarketPrice") .vnone)

/-- The change/changePercent computation of `_build_summary`:

    change = None; change_pct = None
    if price is not None and prev_close:
        change = round(price - prev_close, 2)
        change_pct = round((change / prev_close) * 100, 2)

When the guard holds but an operand is not a number, Python's subtraction
raises `TypeError` (strings reach here unfiltered; NaN cannot, since
`pySafe` with default `vnone` never returns `nan`, so the catch-all branch
is only ever taken at non-numeric operands). When the guard holds on two
numbers, `prev_close` is truthy hence nonzero, so the division is safe. -/
def changePair (price prevClose : Val) : Except Exn (Val × Val) :=
  if price ≠ Val.vnone ∧ truthy prevClose = true then
    match price, prevClose with
    | .num p, .num pc =>
        .ok (.num (round2 (p - pc)), .num (round2 (round2 (p - pc) / pc * 100)))
    | _, _ => .error .typeError
  else
    .ok (.vnone, .vnone)

/-- The normalized batch quote object. `error` is `none` exactly when the
Python dict carries no `"error"` key. -/
structure Summary where
  symbol : String
  name : Val
  price : Val
  change : Val
  changePercent : Val
  error : Option String
deriving DecidableEq, Repr

/-- Embedding of `_build_summary(ticker, symbol)`. The record is the already-fetched
`ticker.info or {}`; fetch failures are handled by the callers. The name
field is computed only after the change pair in Python, but both orders
agree since `pySafe` on record values is total. -/
def buildSummary (info : Record) (symbol : String) : Except Exn Summary :=
  match changePair (extractPrice info) (pySafe (info "regularMarketPreviousClose") .vnone) with
  | .error e => .error e
  | .ok cp =>
      .ok ⟨pyUpper symbol,
           pySafe (info "shortName") (.vstr (pyUpper symbol)),
           extractPrice info, cp.1, cp.2, none⟩

/-- The quote provider (`yf.Ticker(sym)` plus the `ticker.info` access):
given a symbol it yields the raw record, or fails with the exception's
message `str(exc)` (an arbitrary, possibly empty, string). -/
def Provider : Type := String → Except String Record

/-- The per-symbol failure entry appended by `get_stocks`'s `except` arm. -/
def errorEntry (sym msg : String) : Summary :=
  ⟨sym, .vstr sym, .vnone, .vnone, .vnone, some msg⟩

/-- Representative rendering of `str(exc)` for an exception escaping
`_build_summary` (only `TypeError` from the arithmetic can occur there). -/
def exnMsg : Exn → String
  | .typeError => "unsupported operand type(s) for -"
  | .valueError => "invalid value"
  | .other => "exception"

/-- One iteration of `get_stocks`'s loop body: the `try` block fetches
and shapes, and any exception (from the fetch or from `_build_summary`)
is degraded to an `errorEntry` carrying `str(exc)`. -/
def fetchSummary (provider : Provider) (sym : String) : Summary :=
  match provider sym with
  | .error msg => errorEntry sym msg
  | .ok info =>
      match buildSummary info sym with
      | .ok s => s
      | .error e => errorEntry sym (exnMsg e)

/-- Symbol-list parsing of `get_stocks`:
`[s.strip().upper() for s in symbols.split(",") if s.strip()]`. -/
def parseSymbols (symbols : String) : List String :=
  (splitComma symbols).filterMap fun s =>
    if pyStrip s = "" then none else some (pyUpper (pyStrip s))

/-- Outcome of `GET /api/stocks`: the stocks list, or the 400 response
raised when no symbols survive parsing. -/
inductive BatchResult where
  | ok (stocks : List Summary)
  | err400 (detail : String)
deriving DecidableEq, Repr

deriving instance DecidableEq for Except

/-- Embedding of the `get_stocks` route: the parsed `symbol_list` is
checked for emptiness and otherwise each symbol is fetched and shaped in
order, failures degraded per entry inside `fetchSummary`. -/
def getStocks (provider : Provider) (symbols : String) : BatchResult :=
  if parseSymbols symbols = [] then .err400 "No symbols provided"
  else .ok ((parseSymbols symbols).map (fetchSummary provider))

/-- The normalized detail object of `get_stock_detail`. -/
structure Detail where
  symbol : String
  name : Val
  price : Val
  marketCap : Val
  sector : Val
  industry : Val
deriving DecidableEq, Repr

/-- Outcome of `GET /api/stock/{symbol}`: the detail object, the 502
response when the fetch throws, or the 404 response when no price is
found. -/
inductive DetailResult where
  | ok (d : Detail)
  | err502 (detail : String)
  | err404 (detail : String)
deriving DecidableEq, Repr

/-- Embedding of the `get_stock_detail` route; the function's first line
`symbol = symbol.strip().upper()` is inlined as `pyUpper (pyStrip symbol)`. -/
def getStockDetail (provider : Provider) (symbol : String) : DetailResult :=
  match provider (pyUpper (pyStrip symbol)) with
  | .error _ => .err502 ("Failed to fetch data for " ++ pyUpper (pyStrip symbol))
  | .ok info =>
      if extractPrice info = Val.vnone then
        .err404 ("No price data found for " ++ pyUpper (pyStrip symbol))
      else
        .ok ⟨pyUpper (pyStrip symbol),
             pySafe (info "shortName") (.vstr (pyUpper (pyStrip symbol))),
             extractPrice info,
             pySafe (info "marketCap") .vnone,
             pySafe (info "sector") (.vstr "N/A"),
             pySafe (info "industry") (.vstr "N/A")⟩

/-- Discriminator for number values (used to state when the change
computation's operands are numeric). -/
def Val.isNum : Val → Bool
  | .num _ => true
  | _ => false

/-! ### Concrete fixtures used in witnesses and counterexamples -/

/-- Record with `currentPrice=150.0, regularMarketPreviousClose=145.0`. -/
def rec150 : Record :=
  recOf [("currentPrice", .num 150), ("regularMarketPreviousClose", .num 145)]

/-- Expected summary for `rec150`: change 5, changePercent 3.45. -/
def sum150 : Summary :=
  ⟨"AAPL", .vstr "AAPL", .num 150, .num 5, .num (mkQ 345 100), none⟩

/-- Provider that always returns `rec150`. -/
def prov150 : Provider := fun _ => .ok rec150

/-- Record with `currentPrice=0, regularMarketPrice=42.0`. -/
def rec0_42 : Record :=
  recOf [("currentPrice", .num 0), ("regularMarketPrice", .num 42)]

/-- Expected summary for `rec0_42`: the falsy zero is overridden by 42. -/
def sum0_42 : Summary :=
  ⟨"AAPL", .vstr "AAPL", .num 42, .vnone, .vnone, none⟩

/-- Provider that always returns `rec0_42`. -/
def prov0_42 : Provider := fun _ => .ok rec0_42

/-- Record whose only price-like field is `regularMarketPrice=0`. -/
def rec10 : Record := recOf [("regularMarketPrice", .num 0)]

/-- Provider that always returns `rec10`. -/
def prov10 : Provider := fun _ => .ok rec10

/-- Summary produced for `rec10`: price 0, no change pair. -/
def sum10 : Summary := ⟨"AAPL", .vstr "AAPL", .num 0, .vnone, .vnone, none⟩

/-- Record with a non-numeric (string) current price and a truthy previous
close: Python raises `TypeError` at `round(price - prev_close, 2)`. -/
def rec5bad : Record :=
  recOf [("currentPrice", .vstr "abc"), ("regularMarketPreviousClose", .num 145)]

/-- Record whose only field is the present-and-numeric `currentPrice=0`. -/
def rec6 : Record := recOf [("currentPrice", .num 0)]

/-- Summary produced for `rec6`: the price is absent despite a present,
numeric `currentPrice`. -/
def sum6 : Summary := ⟨"A", .vstr "A", .vnone, .vnone, .vnone, none⟩

/-- Provider failing on `BAD` with message `boom`, else serving `rec150`. -/
def provC4 : Provider := fun s =>
  if s = "BAD" then .error "boom" else .ok rec150

/-- Provider failing on `BAD` with an empty message, else serving `rec150`. -/
def provC4e : Provider := fun s =>
  if s = "BAD" then .error "" else .ok rec150

/-- The successful `rec150`-based summary entry for a given symbol. -/
def entry150 (sym : String) : Summary :=
  ⟨sym, .vstr sym, .num 150, .num 5, .num (mkQ 345 100), none⟩

/-- Expected batch output for `AAPL,BAD,MSFT` against `provC4`. -/
def lC4 : List Summary :=
  [entry150 "AAPL", errorEntry "BAD" "boom", entry150 "MSFT"]

/-- Expected batch output for `" aapl ,msft"` against `prov150`. -/
def l9 : List Summary := [entry150 "AAPL", entry150 "MSFT"]

/-- Expected detail output for `" aapl "` against `prov150`. -/
def d9 : Detail := ⟨"AAPL", .vstr "AAPL", .num 150, .vnone, .vstr "N/A", .vstr "N/A"⟩

/-! ### Helper lemmas -/

/-- The restriction of `_safe` agrees with the full embedding on record
values. -/
theorem pySafeFull_base (v d : Val) :
    pySafeFull (.base v) (.base d) = .ok (.base (pySafe v d)) := by
  cases v <;> rfl

/-- Uppercasing one character is idempotent. -/
theorem upChar_idem (c : Char) : upChar (upChar c) = upChar c := by
  by_cases h : 97 ≤ c.toNat ∧ c.toNat ≤ 122
  · have hc : upChar c = Char.ofNat (c.toNat - 32) := by
      rw [upChar, if_pos h]
    rw [hc]
    obtain ⟨h1, h2⟩ := h
    generalize c.toNat = n at h1 h2
    interval_cases n <;> decide
  · have hc : upChar c = c := by rw [upChar, if_neg h]
    rw [hc]; exact hc

/-- Python uppercasing is idempotent. -/
theorem pyUpper_idem (s : String) : pyUpper (pyUpper s) = pyUpper s := by
  unfold pyUpper
  have : ∀ l : List Char, (l.map upChar).map upChar = l.map upChar := by
    intro l
    induction l with
    | nil => rfl
    | cons c cs ih => simp [upChar_idem, ih]
  exact congrArg String.mk (this s.data)

/-- Every parsed token is the uppercased trim of some raw comma chunk. -/
theorem parseSymbols_mem (symbols : String) (t : String)
    (h : t ∈ parseSymbols symbols) :
    ∃ raw ∈ splitComma symbols, t = pyUpper (pyStrip raw) := by
  rw [parseSymbols, List.mem_filterMap] at h
  obtain ⟨raw, hraw, hval⟩ := h
  refine ⟨raw, hraw, ?_⟩
  by_cases he : pyStrip raw = ""
  · rw [if_pos he] at hval; cases hval
  · rw [if_neg he] at hval; exact (Option.some_inj.mp hval).symm

/-- On record values, `pySafe` with default `vnone` never returns `nan`. -/
theorem pySafe_ne_nan (v : Val) : pySafe v .vnone ≠ Val.nan := by
  cases v <;> simp [pySafe]

/-- Shape of every successful `buildSummary` result. -/
theorem buildSummary_ok (info : Record) (sym : String) (s : Summary)
    (h : buildSummary info sym = .ok s) :
    ∃ ch pct,
      changePair (extractPrice info) (pySafe (info "regularMarketPreviousClose") .vnone)
        = .ok (ch, pct) ∧
      s = ⟨pyUpper sym, pySafe (info "shortName") (.vstr (pyUpper sym)),
           extractPrice info, ch, pct, none⟩ := by
  rw [buildSummary.eq_def] at h
  rcases hcp : changePair (extractPrice info)
      (pySafe (info "regularMarketPreviousClose") .vnone) with e | cp
  · rw [hcp] at h; cases h
  · rw [hcp] at h
    refine ⟨cp.1, cp.2, rfl, ?_⟩
    exact (Except.ok.inj h).symm

/-- Case analysis on a successful change-pair computation. -/
theorem changePair_ok_cases (price prev : Val) (ch pct : Val)
    (h : changePair price prev = .ok (ch, pct)) :
    (ch = Val.vnone ∧ pct = Val.vnone ∧ (price = Val.vnone ∨ truthy prev = false)) ∨
    (∃ p pc, price = Val.num p ∧ prev = Val.num pc ∧ truthy (Val.num pc) = true ∧
      ch = Val.num (round2 (p - pc)) ∧
      pct = Val.num (round2 (round2 (p - pc) / pc * 100))) := by
  rw [changePair.eq_def] at h
  by_cases hg : price ≠ Val.vnone ∧ truthy prev = true
  · rw [if_pos hg] at h
    cases price with
    | vnone => exact absurd rfl hg.1
    | nan => cases prev <;> simp_all
    | vstr s1 => cases prev <;> simp_all
    | num p =>
      cases prev with
      | num pc =>
        injection h with h2
        injection h2 with ha hb
        exact Or.inr ⟨p, pc, rfl, rfl, hg.2, ha.symm, hb.symm⟩
      | vnone => simp_all [truthy]
      | nan => simp_all
      | vstr s2 => simp_all
  · rw [if_neg hg] at h
    injection h with h2
    injection h2 with ha hb
    refine Or.inl ⟨ha.symm, hb.symm, ?_⟩
    by_cases hp : price = Val.vnone
    · exact Or.inl hp
    · right
      by_cases ht : truthy prev = true
      · exact absurd ⟨hp, ht⟩ hg
      · simpa using ht

/-- The change computation errors exactly when the guard holds on a
non-numeric operand. -/
theorem changePair_error_iff (price prev : Val) :
    changePair price prev = .error Exn.typeError ↔
      (price ≠ Val.vnone ∧ truthy prev = true ∧
        (price.isNum = false ∨ prev.isNum = false)) := by
  rw [changePair.eq_def]
  by_cases hg : price ≠ Val.vnone ∧ truthy prev = true
  · rw [if_pos hg]
    cases price <;> cases prev <;> simp_all [Val.isNum]
  · rw [if_neg hg]
    constructor
    · intro h; cases h
    · rintro ⟨h1, h2, _⟩; exact absurd ⟨h1, h2⟩ hg

/-- The change computation yields a pair or a `TypeError`, nothing else. -/
theorem changePair_total (price prev : Val) :
    (∃ cp, changePair price prev = .ok cp) ∨
      changePair price prev = .error Exn.typeError := by
  rw [changePair.eq_def]
  by_cases hg : price ≠ Val.vnone ∧ truthy prev = true
  · rw [if_pos hg]
    cases price <;> cases prev <;> simp
  · rw [if_neg hg]
    exact Or.inl ⟨_, rfl⟩

/-- The shaper errors exactly as its change computation does. -/
theorem buildSummary_error_iff (info : Record) (sym : String) (e : Exn) :
    buildSummary info sym = .error e ↔
      changePair (extractPrice info)
        (pySafe (info "regularMarketPreviousClose") .vnone) = .error e := by
  rw [buildSummary.eq_def]
  rcases hcp : changePair (extractPrice info)
      (pySafe (info "regularMarketPreviousClose") .vnone) with e' | cp <;> simp

/-- Python's `or` yields `None` exactly when the left operand is falsy and
the right operand is `None`. -/
theorem pyOr_eq_vnone (a b : Val) :
    pyOr a b = Val.vnone ↔ (truthy a = false ∧ b = Val.vnone) := by
  rw [pyOr]
  by_cases ha : truthy a = true
  · rw [if_pos ha]
    constructor
    · intro h; rw [h] at ha; cases ha
    · rintro ⟨h1, _⟩; rw [ha] at h1; cases h1
  · rw [if_neg ha]
    simp only [Bool.not_eq_true] at ha
    exact ⟨fun h => ⟨ha, h⟩, fun h => h.2⟩

/-- A successful batch result is the per-symbol map over the parsed list. -/
theorem getStocks_ok (p : Provider) (symbols : String) (l : List Summary)
    (h : getStocks p symbols = .ok l) :
    parseSymbols symbols ≠ [] ∧
      l = (parseSymbols symbols).map (fetchSummary p) := by
  rw [getStocks.eq_def] at h
  by_cases he : parseSymbols symbols = []
  · rw [if_pos he] at h; cases h
  · rw [if_neg he] at h
    exact ⟨he, (BatchResult.ok.inj h).symm⟩

/-- A failed fetch produces exactly the per-symbol error entry. -/
theorem fetchSummary_of_error (p : Provider) (sym msg : String)
    (h : p sym = .error msg) :
    fetchSummary p sym = errorEntry sym msg := by
  rw [fetchSummary.eq_def, h]

/-- A batch entry depends only on the provider's answer for its own
symbol. -/
theorem fetchSummary_congr (p₁ p₂ : Provider) (sym : String)
    (h : p₁ sym = p₂ sym) :
    fetchSummary p₁ sym = fetchSummary p₂ sym := by
  rw [fetchSummary.eq_def, fetchSummary.eq_def, h]

/-- The symbol of every batch entry for an uppercase-closed token is the
token itself. -/
theorem fetchSummary_symbol (p : Provider) (sym : String)
    (h : pyUpper sym = sym) :
    (fetchSummary p sym).symbol = sym := by
  rcases hp : p sym with msg | info
  · rw [fetchSummary.eq_def, hp]
    rfl
  · rcases hb : buildSummary info sym with e | s
    · rw [fetchSummary.eq_def, hp]
      simp only [hb]
      rfl
    · rw [fetchSummary.eq_def, hp]
      simp only [hb]
      obtain ⟨ch, pct, _, hs⟩ := buildSummary_ok info sym s hb
      rw [hs]
      exact h

/-- A throwing fetch maps to the 502 response. -/
theorem getStockDetail_of_error (p : Provider) (sym msg : String)
    (hp : p (pyUpper (pyStrip sym)) = .error msg) :
    getStockDetail p sym
      = .err502 ("Failed to fetch data for " ++ pyUpper (pyStrip sym)) := by
  rw [getStockDetail.eq_def, hp]

/-- A successful fetch without a usable price maps to the 404 response. -/
theorem getStockDetail_of_none (p : Provider) (sym : String) (info : Record)
    (hp : p (pyUpper (pyStrip sym)) = .ok info)
    (he : extractPrice info = Val.vnone) :
    getStockDetail p sym
      = .err404 ("No price data found for " ++ pyUpper (pyStrip sym)) := by
  rw [getStockDetail.eq_def, hp]
  simp only [he, if_pos]

/-- A successful fetch with a present price yields the full detail
object. -/
theorem getStockDetail_of_ok (p : Provider) (sym : String) (info : Record)
    (hp : p (pyUpper (pyStrip sym)) = .ok info)
    (hne : extractPrice info ≠ Val.vnone) :
    getStockDetail p sym = .ok ⟨pyUpper (pyStrip sym),
      pySafe (info "shortName") (.vstr (pyUpper (pyStrip sym))),
      extractPrice info,
      pySafe (info "marketCap") Val.vnone,
      pySafe (info "sector") (.vstr "N/A"),
      pySafe (info "industry") (.vstr "N/A")⟩ := by
  rw [getStockDetail.eq_def, hp]
  simp only [if_neg hne]

/-! ### Claim theorems -/

/-- C3 (amended): `_safe(v, d)` returns the default on absent (None) values
and on NaN (a float unequal to itself); every other value passes through
unchanged, where a `TypeError` or `ValueError` raised by the
self-comparison is caught and treated as pass-through; an exception of any
other class raised by the self-comparison propagates out of `_safe`
instead of being caught. The default is absent when the caller omits it
(modelled by passing `.base .vnone` explicitly). -/
theorem spec_c3 (d : PyVal) (q : Q) (s : String) :
    pySafeFull (.base .vnone) d = .ok d ∧
    pySafeFull (.base .nan) d = .ok d ∧
    pySafeFull (.base (.num q)) d = .ok (.base (.num q)) ∧
    pySafeFull (.base (.vstr s)) d = .ok (.base (.vstr s)) ∧
    pySafeFull (.obj none) d = .ok (.obj none) ∧
    pySafeFull (.obj (some .typeError)) d = .ok (.obj (some .typeError)) ∧
    pySafeFull (.obj (some .valueError)) d = .ok (.obj (some .valueError)) ∧
    pySafeFull (.obj (some .other)) d = .error .other :=
  ⟨rfl, rfl, rfl, rfl, rfl, rfl, rfl, rfl⟩

/-- C3 witness: the amended characterization instantiated at concrete
values. -/
theorem spec_c3_witness :
    pySafeFull (.base .vnone) (.base (.vstr "dflt")) = .ok (.base (.vstr "dflt")) ∧
    pySafeFull (.base .nan) (.base (.vstr "dflt")) = .ok (.base (.vstr "dflt")) ∧
    pySafeFull (.base (.num 7)) (.base (.vstr "dflt")) = .ok (.base (.num 7)) ∧
    pySafeFull (.base (.vstr "hi")) (.base (.vstr "dflt")) = .ok (.base (.vstr "hi")) ∧
    pySafeFull (.obj none) (.base (.vstr "dflt")) = .ok (.obj none) ∧
    pySafeFull (.obj (some .typeError)) (.base (.vstr "dflt")) = .ok (.obj (some .typeError)) ∧
    pySafeFull (.obj (some .valueError)) (.base (.vstr "dflt")) = .ok (.obj (some .valueError)) ∧
    pySafeFull (.obj (some .other)) (.base (.vstr "dflt")) = .error .other :=
  spec_c3 (.base (.vstr "dflt")) 7 "hi"

/-- C3 counterexample: a value whose self-comparison raises an exception
that is neither `TypeError` nor `ValueError` makes `_safe` propagate the
exception — the value is neither passed through nor defaulted, so the
claim that any comparison exception is caught and treated as pass-through
is false at this input. -/
theorem spec_c3_cex :
    pySafeFull (.obj (some .other)) (.base .vnone) = .error .other ∧
    pySafeFull (.obj (some .other)) (.base .vnone) ≠ .ok (.obj (some .other)) ∧
    pySafeFull (.obj (some .other)) (.base .vnone) ≠ .ok (.base .vnone) :=
  ⟨rfl, by decide, by decide⟩

/-- C1: a produced batch summary carries
`change = round(price - prevClose, 2)` and
`changePercent = round(change / prevClose * 100, 2)` exactly when the
extracted price is present and the extracted previous close truthy, and
both fields are absent otherwise; for `currentPrice=150.0,
regularMarketPreviousClose=145.0` the summary is price 150, change 5,
changePercent 3.45 (= 345/100). -/
theorem spec_c1 :
    (∀ (info : Record) (sym : String) (s : Summary),
      buildSummary info sym = .ok s →
        ((s.price ≠ Val.vnone ∧
            truthy (pySafe (info "regularMarketPreviousClose") Val.vnone) = true) →
          ∃ p pc, s.price = Val.num p ∧
            pySafe (info "regularMarketPreviousClose") Val.vnone = Val.num pc ∧
            s.change = Val.num (round2 (p - pc)) ∧
            s.changePercent = Val.num (round2 (round2 (p - pc) / pc * 100))) ∧
        (¬(s.price ≠ Val.vnone ∧
            truthy (pySafe (info "regularMarketPreviousClose") Val.vnone) = true) →
          s.change = Val.vnone ∧ s.changePercent = Val.vnone)) ∧
    buildSummary rec150 "AAPL" = .ok sum150 := by
  constructor
  · intro info sym s h
    obtain ⟨ch, pct, hcp, hs⟩ := buildSummary_ok info sym s h
    subst hs
    rcases changePair_ok_cases _ _ _ _ hcp with ⟨h1, h2, h3⟩ | ⟨p, pc, hp, hpc, htr, hch, hpct⟩
    · constructor
      · rintro ⟨hpn, hpt⟩
        rcases h3 with h3 | h3
        · exact absurd h3 hpn
        · rw [hpt] at h3; cases h3
      · intro _
        exact ⟨h1, h2⟩
    · constructor
      · intro _
        exact ⟨p, pc, hp, hpc, hch, hpct⟩
      · intro hn
        refine absurd ⟨fun hv => ?_, ?_⟩ hn
        · rw [hp] at hv; cases hv
        · rw [hpc]; exact htr
  · decide

/-- C1 witness: the rule applied at the concrete 150/145 record. -/
theorem spec_c1_witness :
    buildSummary rec150 "AAPL" = .ok sum150 ∧
    (sum150.price ≠ Val.vnone ∧
      truthy (pySafe (rec150 "regularMarketPreviousClose") Val.vnone) = true) ∧
    (∃ p pc, sum150.price = Val.num p ∧
      pySafe (rec150 "regularMarketPreviousClose") Val.vnone = Val.num pc ∧
      sum150.change = Val.num (round2 (p - pc)) ∧
      sum150.changePercent = Val.num (round2 (round2 (p - pc) / pc * 100))) :=
  ⟨by decide, by decide,
    (spec_c1.1 rec150 "AAPL" sum150 (by decide)).1 (by decide)⟩

/-- C2: the price of every produced batch summary follows Python's
short-circuit `or` over the two safely extracted price fields — a falsy
first field (including a legitimate 0) defers to the second — and at
`currentPrice=0, regularMarketPrice=42.0` both the batch summary and the
single-detail path yield price 42. -/
theorem spec_c2 :
    (∀ (info : Record) (sym : String) (s : Summary),
      buildSummary info sym = .ok s →
        s.price = (if truthy (pySafe (info "currentPrice") Val.vnone) = true
                   then pySafe (info "currentPrice") Val.vnone
                   else pySafe (info "regularMarketPrice") Val.vnone)) ∧
    buildSummary rec0_42 "AAPL" = .ok sum0_42 ∧
    getStockDetail prov0_42 "AAPL"
      = .ok ⟨"AAPL", .vstr "AAPL", .num 42, .vnone, .vstr "N/A", .vstr "N/A"⟩ := by
  refine ⟨?_, by decide, by decide⟩
  intro info sym s h
  obtain ⟨ch, pct, hcp, hs⟩ := buildSummary_ok info sym s h
  subst hs
  rfl

/-- C2 witness: the fallback rule applied at the concrete zero/42 record. -/
theorem spec_c2_witness :
    buildSummary rec0_42 "AAPL" = .ok sum0_42 ∧
    sum0_42.price = (if truthy (pySafe (rec0_42 "currentPrice") Val.vnone) = true
                     then pySafe (rec0_42 "currentPrice") Val.vnone
                     else pySafe (rec0_42 "regularMarketPrice") Val.vnone) :=
  ⟨by decide, spec_c2.1 rec0_42 "AAPL" sum0_42 (by decide)⟩

/-- C5 (amended): the batch shaper raises (a `TypeError`) exactly when the
extracted price is present, the extracted previous close is truthy, and at
least one of the two is not a number (e.g. a string); in every other case —
in particular whenever the price-related fields are numeric or absent — it
produces a summary, degrading missing or invalid fields to
absent/defaulted values. It raises no other exception. -/
theorem spec_c5 :
    (∀ (info : Record) (sym : String),
      buildSummary info sym = .error Exn.typeError ↔
        (extractPrice info ≠ Val.vnone ∧
         truthy (pySafe (info "regularMarketPreviousClose") Val.vnone) = true ∧
         ((extractPrice info).isNum = false ∨
          (pySafe (info "regularMarketPreviousClose") Val.vnone).isNum = false))) ∧
    (∀ (info : Record) (sym : String),
      (∃ s, buildSummary info sym = .ok s) ∨
        buildSummary info sym = .error Exn.typeError) := by
  constructor
  · intro info sym
    rw [buildSummary_error_iff]
    exact changePair_error_iff _ _
  · intro info sym
    rcases changePair_total (extractPrice info)
        (pySafe (info "regularMarketPreviousClose") Val.vnone) with ⟨cp, hcp⟩ | herr
    · left
      refine ⟨⟨pyUpper sym, pySafe (info "shortName") (.vstr (pyUpper sym)),
               extractPrice info, cp.1, cp.2, none⟩, ?_⟩
      rw [buildSummary.eq_def, hcp]
    · right
      rw [buildSummary_error_iff]
      exact herr

/-- C5 witness: the failure characterization at the concrete record with a
string price and truthy previous close. -/
theorem spec_c5_witness :
    (extractPrice rec5bad ≠ Val.vnone ∧
     truthy (pySafe (rec5bad "regularMarketPreviousClose") Val.vnone) = true ∧
     ((extractPrice rec5bad).isNum = false ∨
      (pySafe (rec5bad "regularMarketPreviousClose") Val.vnone).isNum = false)) ∧
    buildSummary rec5bad "AAPL" = .error Exn.typeError :=
  ⟨by decide, (spec_c5.1 rec5bad "AAPL").mpr (by decide)⟩

/-- C5 counterexample: the claim says the shaper never fails on any record;
on a record with the string value `abc` in `currentPrice` and previous
close 145 the shaper raises (Python: `TypeError` at
`round(price - prev_close, 2)`) instead of producing a summary. -/
theorem spec_c5_cex :
    rec5bad "currentPrice" = Val.vstr "abc" ∧
    rec5bad "regularMarketPreviousClose" = Val.num 145 ∧
    buildSummary rec5bad "AAPL" = .error Exn.typeError := by
  decide

/-- C6 (amended): in a produced batch summary, the price is absent if and
only if the safe extraction of `currentPrice` is falsy (absent, NaN, zero,
or an otherwise falsy value) and the safe extraction of
`regularMarketPrice` is absent (missing, None or NaN). A present, numeric
but zero `currentPrice` therefore does not make the price present. -/
theorem spec_c6 :
    ∀ (info : Record) (sym : String) (s : Summary),
      buildSummary info sym = .ok s →
        (s.price = Val.vnone ↔
          (truthy (pySafe (info "currentPrice") Val.vnone) = false ∧
           pySafe (info "regularMarketPrice") Val.vnone = Val.vnone)) := by
  intro info sym s h
  obtain ⟨ch, pct, hcp, hs⟩ := buildSummary_ok info sym s h
  subst hs
  exact pyOr_eq_vnone _ _

/-- C6 witness: the amended equivalence at the record whose only field is
`currentPrice=0`. -/
theorem spec_c6_witness :
    buildSummary rec6 "A" = .ok sum6 ∧
    (sum6.price = Val.vnone ↔
      (truthy (pySafe (rec6 "currentPrice") Val.vnone) = false ∧
       pySafe (rec6 "regularMarketPrice") Val.vnone = Val.vnone)) :=
  ⟨by decide, spec_c6 rec6 "A" sum6 (by decide)⟩

/-- C6 counterexample: on the record whose only field is `currentPrice=0`
the summary's price is absent although `currentPrice` is present and
numeric — so price absence is not equivalent to neither price field being
present and numeric, as the claim states. -/
theorem spec_c6_cex :
    buildSummary rec6 "A" = .ok sum6 ∧
    sum6.price = Val.vnone ∧
    rec6 "currentPrice" = Val.num 0 ∧
    (rec6 "currentPrice").isNum = true := by
  decide

/-- C10: the falsy-zero treatment applies only to the first price field —
when the safe extraction of `currentPrice` is falsy and
`regularMarketPrice` is exactly 0, the extracted price is the present
number 0, so the batch summary reports price 0 and the single-detail
operation returns a detail object with price 0 instead of failing with the
404-class error. -/
theorem spec_c10 :
    ∀ (info : Record) (sym : String),
      truthy (pySafe (info "currentPrice") Val.vnone) = false →
      info "regularMarketPrice" = Val.num 0 →
      (∀ s, buildSummary info sym = .ok s → s.price = Val.num 0) ∧
      (∀ p : Provider, p (pyUpper (pyStrip sym)) = .ok info →
        ∃ d, getStockDetail p sym = .ok d ∧ d.price = Val.num 0) := by
  intro info sym hfalsy hzero
  have hep : extractPrice info = Val.num 0 := by
    rw [extractPrice, pyOr, if_neg (by rw [hfalsy]; exact Bool.false_ne_true)]
    rw [hzero]
    rfl
  constructor
  · intro s h
    obtain ⟨ch, pct, hcp, hs⟩ := buildSummary_ok info sym s h
    subst hs
    exact hep
  · intro p hp
    refine ⟨_, getStockDetail_of_ok p sym info hp (by rw [hep]; decide), hep⟩

/-- C10 witness: both paths evaluated at the record whose only field is
`regularMarketPrice=0`. -/
theorem spec_c10_witness :
    truthy (pySafe (rec10 "currentPrice") Val.vnone) = false ∧
    rec10 "regularMarketPrice" = Val.num 0 ∧
    buildSummary rec10 "AAPL" = .ok sum10 ∧
    sum10.price = Val.num 0 ∧
    (∃ d, getStockDetail prov10 "AAPL" = .ok d ∧ d.price = Val.num 0) :=
  ⟨by decide, by decide, by decide,
    (spec_c10 rec10 "AAPL" (by decide) (by decide)).1 sum10 (by decide),
    (spec_c10 rec10 "AAPL" (by decide) (by decide)).2 prov10 rfl⟩

/-- C4 (amended): a successful batch has exactly one entry per parsed
symbol, in input order, where entry `i` is the shaping of the provider's
answer for symbol `i` alone; a provider failure yields an entry with
absent price and an error field carrying the provider's failure message
(present but possibly empty); an entry depends only on the provider's
answer for its own symbol; and for `AAPL,BAD,MSFT` with `BAD` failing, the
batch has exactly the three expected entries, `AAPL` and `MSFT` equal to
their entries in the `BAD`-free batch. -/
theorem spec_c4 :
    (∀ (p : Provider) (symbols : String) (l : List Summary),
      getStocks p symbols = .ok l →
        l.length = (parseSymbols symbols).length ∧
        ∀ (i : ℕ) (hl : i < l.length) (hi : i < (parseSymbols symbols).length),
          l.get ⟨i, hl⟩ = fetchSummary p ((parseSymbols symbols).get ⟨i, hi⟩)) ∧
    (∀ (p : Provider) (sym msg : String),
      p sym = .error msg →
        fetchSummary p sym = errorEntry sym msg ∧
        (errorEntry sym msg).price = Val.vnone ∧
        (errorEntry sym msg).error = some msg) ∧
    (∀ (p₁ p₂ : Provider) (sym : String),
      p₁ sym = p₂ sym → fetchSummary p₁ sym = fetchSummary p₂ sym) ∧
    getStocks provC4 "AAPL,BAD,MSFT" = .ok lC4 ∧
    getStocks provC4 "AAPL,MSFT" = .ok [entry150 "AAPL", entry150 "MSFT"] := by
  refine ⟨?_, ?_, fetchSummary_congr, by decide, by decide⟩
  · intro p symbols l h
    obtain ⟨hne, hl⟩ := getStocks_ok p symbols l h
    subst hl
    refine ⟨List.length_map .., ?_⟩
    intro i hl hi
    simp [List.get_eq_getElem, List.getElem_map]
  · intro p sym msg h
    exact ⟨fetchSummary_of_error p sym msg h, rfl, rfl⟩

/-- C4 witness: the batch over `AAPL,BAD,MSFT` with `BAD` failing with
message `boom`. -/
theorem spec_c4_witness :
    getStocks provC4 "AAPL,BAD,MSFT" = .ok lC4 ∧
    lC4.length = (parseSymbols "AAPL,BAD,MSFT").length ∧
    provC4 "BAD" = .error "boom" ∧
    fetchSummary provC4 "BAD" = errorEntry "BAD" "boom" ∧
    (errorEntry "BAD" "boom").price = Val.vnone ∧
    (errorEntry "BAD" "boom").error = some "boom" :=
  ⟨by decide, (spec_c4.1 provC4 "AAPL,BAD,MSFT" lC4 (by decide)).1, rfl,
    (spec_c4.2.1 provC4 "BAD" "boom" rfl).1,
    (spec_c4.2.1 provC4 "BAD" "boom" rfl).2.1,
    (spec_c4.2.1 provC4 "BAD" "boom" rfl).2.2⟩

/-- C4 counterexample: `str(exc)` of the caught exception may be the empty
string (e.g. Python's bare `Exception()`), in which case the failed
symbol's entry carries an empty — not non-empty — error string, while the
batch is otherwise as claimed. -/
theorem spec_c4_cex :
    getStocks provC4e "AAPL,BAD,MSFT"
      = .ok [entry150 "AAPL", errorEntry "BAD" "", entry150 "MSFT"] ∧
    (errorEntry "BAD" "").error = some "" ∧
    ("" : String).length = 0 := by
  decide

/-- C8: when no symbols survive splitting on commas, trimming and dropping
empties, the batch fails with the 400-class empty-input error for every
provider (so no provider call can influence the outcome); when at least
one symbol survives, the operation as a whole always succeeds. -/
theorem spec_c8 :
    ∀ (p : Provider) (symbols : String),
      (parseSymbols symbols = [] →
        getStocks p symbols = .err400 "No symbols provided" ∧
        ∀ p' : Provider, getStocks p' symbols = .err400 "No symbols provided") ∧
      (parseSymbols symbols ≠ [] → ∃ l, getStocks p symbols = .ok l) := by
  intro p symbols
  constructor
  · intro he
    have h1 : ∀ p' : Provider,
        getStocks p' symbols = .err400 "No symbols provided" := by
      intro p'
      rw [getStocks.eq_def, if_pos he]
    exact ⟨h1 p, h1⟩
  · intro hne
    exact ⟨(parseSymbols symbols).map (fetchSummary p),
      by rw [getStocks.eq_def, if_neg hne]⟩

/-- C8 witness: the all-empty input `",,"` is rejected identically under
two different providers, and a nonempty input succeeds. -/
theorem spec_c8_witness :
    parseSymbols ",," = [] ∧
    getStocks prov150 ",," = .err400 "No symbols provided" ∧
    getStocks provC4 ",," = .err400 "No symbols provided" ∧
    parseSymbols "AAPL" ≠ [] ∧
    (∃ l, getStocks prov150 "AAPL" = .ok l) :=
  ⟨by decide, ((spec_c8 prov150 ",,").1 (by decide)).1,
    ((spec_c8 prov150 ",,").1 (by decide)).2 provC4,
    by decide, (spec_c8 prov150 "AAPL").2 (by decide)⟩

/-- C9: every batch entry's symbol is the corresponding parsed token, and
every parsed token is the uppercased trim of its raw comma chunk; the
detail object's symbol is the uppercased trim of the path input — in both
paths independently of anything in the provider's record. -/
theorem spec_c9 :
    (∀ (p : Provider) (symbols : String) (l : List Summary),
      getStocks p symbols = .ok l →
        l.length = (parseSymbols symbols).length ∧
        (∀ (i : ℕ) (hl : i < l.length) (hi : i < (parseSymbols symbols).length),
          (l.get ⟨i, hl⟩).symbol = (parseSymbols symbols).get ⟨i, hi⟩) ∧
        (∀ t ∈ parseSymbols symbols, ∃ raw ∈ splitComma symbols,
          t = pyUpper (pyStrip raw))) ∧
    (∀ (p : Provider) (sym : String) (d : Detail),
      getStockDetail p sym = .ok d → d.symbol = pyUpper (pyStrip sym)) := by
  constructor
  · intro p symbols l h
    obtain ⟨hne, hl⟩ := getStocks_ok p symbols l h
    subst hl
    refine ⟨List.length_map .., ?_, parseSymbols_mem symbols⟩
    intro i hl hi
    have hmem : (parseSymbols symbols).get ⟨i, hi⟩ ∈ parseSymbols symbols :=
      List.get_mem ..
    obtain ⟨raw, hraw, ht⟩ := parseSymbols_mem symbols _ hmem
    have hupper : pyUpper ((parseSymbols symbols).get ⟨i, hi⟩)
        = (parseSymbols symbols).get ⟨i, hi⟩ := by
      rw [ht, pyUpper_idem]
    rw [show ((parseSymbols symbols).map (fetchSummary p)).get ⟨i, hl⟩
        = fetchSummary p ((parseSymbols symbols).get ⟨i, hi⟩) by
      simp [List.get_eq_getElem, List.getElem_map]]
    exact fetchSummary_symbol p _ hupper
  · intro p sym d h
    rcases hp : p (pyUpper (pyStrip sym)) with msg | info
    · rw [getStockDetail_of_error p sym msg hp] at h
      cases h
    · by_cases he : extractPrice info = Val.vnone
      · rw [getStockDetail_of_none p sym info hp he] at h
        cases h
      · rw [getStockDetail_of_ok p sym info hp he] at h
        rw [← DetailResult.ok.inj h]

/-- C9 witness: batch and detail symbols computed for padded lowercase
inputs. -/
theorem spec_c9_witness :
    getStocks prov150 " aapl ,msft" = .ok l9 ∧
    l9.length = (parseSymbols " aapl ,msft").length ∧
    getStockDetail prov150 " aapl " = .ok d9 ∧
    d9.symbol = pyUpper (pyStrip " aapl ") :=
  ⟨by decide, (spec_c9.1 prov150 " aapl ,msft" l9 (by decide)).1, by decide,
    spec_c9.2 prov150 " aapl " d9 (by decide)⟩

/-- C7: the single-detail operation returns the 502-class error exactly
when the provider fetch throws, the 404-class error exactly when the fetch
succeeds but the extracted price is absent (no partial object in that
case, by disjointness of the result constructors), and otherwise the full
detail object with symbol, name, price, marketCap, sector and industry. -/
theorem spec_c7 :
    ∀ (p : Provider) (sym : String),
      ((∃ m, getStockDetail p sym = .err502 m) ↔
        (∃ e, p (pyUpper (pyStrip sym)) = .error e)) ∧
      ((∃ m, getStockDetail p sym = .err404 m) ↔
        (∃ info, p (pyUpper (pyStrip sym)) = .ok info ∧
          extractPrice info = Val.vnone)) ∧
      (∀ info, p (pyUpper (pyStrip sym)) = .ok info →
        extractPrice info ≠ Val.vnone →
        getStockDetail p sym = .ok ⟨pyUpper (pyStrip sym),
          pySafe (info "shortName") (Val.vstr (pyUpper (pyStrip sym))),
          extractPrice info,
          pySafe (info "marketCap") Val.vnone,
          pySafe (info "sector") (Val.vstr "N/A"),
          pySafe (info "industry") (Val.vstr "N/A")⟩) := by
  intro p sym
  rcases hp : p (pyUpper (pyStrip sym)) with msg | info
  · refine ⟨⟨fun _ => ⟨msg, rfl⟩,
      fun _ => ⟨_, getStockDetail_of_error p sym msg hp⟩⟩, ⟨?_, ?_⟩, ?_⟩
    · rintro ⟨m, hm⟩
      rw [getStockDetail_of_error p sym msg hp] at hm
      cases hm
    · rintro ⟨info, hinfo, _⟩
      cases hinfo
    · intro info hinfo
      cases hinfo
  · by_cases he : extractPrice info = Val.vnone
    · refine ⟨⟨?_, ?_⟩, ⟨fun _ => ⟨info, rfl, he⟩,
        fun _ => ⟨_, getStockDetail_of_none p sym info hp he⟩⟩, ?_⟩
      · rintro ⟨m, hm⟩
        rw [getStockDetail_of_none p sym info hp he] at hm
        cases hm
      · rintro ⟨e, hee⟩
        cases hee
      · intro info' hinfo' hne
        cases Except.ok.inj hinfo'
        exact absurd he hne
    · refine ⟨⟨?_, ?_⟩, ⟨?_, ?_⟩, ?_⟩
      · rintro ⟨m, hm⟩
        rw [getStockDetail_of_ok p sym info hp he] at hm
        cases hm
      · rintro ⟨e, hee⟩
        cases hee
      · rintro ⟨m, hm⟩
        rw [getStockDetail_of_ok p sym info hp he] at hm
        cases hm
      · rintro ⟨info', hinfo', he'⟩
        cases Except.ok.inj hinfo'
        exact absurd he' he
      · intro info' hinfo' hne
        cases Except.ok.inj hinfo'
        exact getStockDetail_of_ok p sym info hp he

/-- C7 witness: the success mode at a provider serving the 150/145
record. -/
theorem spec_c7_witness :
    prov150 (pyUpper (pyStrip "AAPL")) = .ok rec150 ∧
    extractPrice rec150 ≠ Val.vnone ∧
    getStockDetail prov150 "AAPL" = .ok ⟨pyUpper (pyStrip "AAPL"),
      pySafe (rec150 "shortName") (Val.vstr (pyUpper (pyStrip "AAPL"))),
      extractPrice rec150,
      pySafe (rec150 "marketCap") Val.vnone,
      pySafe (rec150 "sector") (Val.vstr "N/A"),
      pySafe (rec150 "industry") (Val.vstr "N/A")⟩ :=
  ⟨rfl, by decide, (spec_c7 prov150 "AAPL").2.2 rec150 rfl (by decide)⟩

end StockGame
